import Mathlib

/-!
Verification development for the MDP_RPI robot orchestrator.

The definitions below are a shallow embedding of the Python sources:
each worker's loop body becomes a pure step function from its inputs
(the dequeued command, the received serial message, the HTTP response)
and the relevant shared state to a result record listing the state
change, the emitted messages and the lock effects.  External calls
(serial link, camera, HTTP) appear as effect values or as response
records passed in, exactly at the points the source performs them.

Primary sources: Task1.py (class RaspberryPi), with the recv_android
variant of Task1_upgrade.py embedded separately where noted.
-/

/-- A pose checkpoint as exchanged with the algo API and stored in
current_location: the dicts with keys x, y, d (Task1.py lines 241-258,
419-420). -/
structure Checkpoint where
  x : Int
  y : Int
  d : Int
deriving DecidableEq, Repr

/-- An obstacle dict as sent by Android and stored in the registry:
keys id, x, y, d (Task1.py lines 212-214, example at line 298). -/
structure Obstacle where
  id : Int
  x : Int
  y : Int
  d : Int
deriving DecidableEq, Repr

/-- The value slot of a PiAction or inbound Android message: a string
(snap commands), an obstacle payload, or null. -/
inductive PiValue where
  | str (s : String)
  | obstaclesPayload (obs : List Obstacle)
  | null
deriving DecidableEq, Repr

/-- PiAction from Task1.py lines 16-35: a category tag and a value. -/
structure PiAction where
  cat : String
  value : PiValue
deriving DecidableEq, Repr

/-- The payload of an outbound AndroidMessage.  The source serializes
location and image-rec payloads with json.dumps; here they are kept
structured (Task1.py lines 247-258 and 361-368). -/
inductive AMsgValue where
  | text (s : String)
  | loc (c : Checkpoint)
  | imageRec (imageId : String) (obstacleId : String)
deriving DecidableEq, Repr

/-- AndroidMessage: category plus value, as put on android_queue. -/
structure AndroidMessage where
  cat : String
  value : AMsgValue
deriving DecidableEq, Repr

/-- How a worker iteration ends: normally, or by an uncaught exception
that kills the worker process. -/
inductive WorkerOutcome where
  | ok
  | fatal (msg : String)
deriving DecidableEq, Repr

/-- Python str.startswith, over the underlying character lists. -/
def pyStartsWith (s pre : String) : Bool :=
  pre.data.isPrefixOf s.data

/-- The stm32_prefixes tuple of Task1.py line 273. -/
def stm32Prefixes : List String := ["FW", "BW", "FL", "FR", "BL", "BR", "SS"]

/-- command.startswith(stm32_prefixes): true when any prefix of the
tuple matches (Task1.py line 274). -/
def isStm32Command (command : String) : Bool :=
  stm32Prefixes.any (fun p => pyStartsWith command p)

/-- The shared state command_follower reads and writes (Task1.py
lines 73-77): the failure and success obstacle sets, current_location,
the failed_attempt flag and the start_movement event. -/
structure CFState where
  failedObstacles : List Obstacle
  successObstacles : List Obstacle
  currentLocation : Checkpoint
  failedAttempt : Bool
  startMovement : Bool
deriving DecidableEq, Repr

/-- The externally visible operations one command_follower iteration
performs, in program order: lock operations, serial sends, action-queue
pushes and the call into request_algo (whose queue effects are modelled
separately by request_algo below). -/
inductive CFEffect where
  | acquireLock
  | releaseLock
  | stmSend (command : String)
  | pushAction (a : PiAction)
  | algoRequest (obstacles : List Obstacle) (robotX robotY robotDir : Int) (retrying : Bool)
deriving DecidableEq, Repr

/-- Result of one command_follower iteration. -/
structure CFResult where
  effects : List CFEffect
  state : CFState
  outcome : WorkerOutcome
deriving DecidableEq, Repr

/-- One iteration of RaspberryPi.command_follower from Task1.py
lines 262-322, after the command has been dequeued and start_movement
waited on.  The branch order is the source's: the stm32-prefix test
comes first, then SNAP, then the `command == "SSSSS"` end-of-path
branch with its retry logic, then the unknown-command raise. -/
def cfStep (command : String) (s : CFState) : CFResult :=
  if isStm32Command command then
    { effects := [CFEffect.acquireLock, CFEffect.stmSend command],
      state := s, outcome := WorkerOutcome.ok }
  else if pyStartsWith command "SNAP" then
    { effects := [CFEffect.pushAction { cat := "snap", value := PiValue.str (command.replace "SNAP" "") }],
      state := s, outcome := WorkerOutcome.ok }
  else if command = "SSSSS" then
    if s.failedObstacles.length ≠ 0 ∧ s.failedAttempt = false then
      { effects := [CFEffect.algoRequest
          (s.failedObstacles ++ s.successObstacles.map (fun o => { o with d := 8 }))
          s.currentLocation.x s.currentLocation.y s.currentLocation.d true,
          CFEffect.releaseLock],
        state := { s with failedAttempt := true },
        outcome := WorkerOutcome.ok }
    else
      { effects := [CFEffect.releaseLock],
        state := { s with startMovement := false },
        outcome := WorkerOutcome.ok }
  else
    { effects := [], state := s,
      outcome := WorkerOutcome.fatal ("Unknown command: " ++ command) }

/-- Recognizer for the lock-release effect. -/
def isRelease : CFEffect → Bool
  | CFEffect.releaseLock => true
  | _ => false

/-- C1: in every reachable state and for every command processed,
command_follower never performs a release of the motion mutex — for any
dequeued command, including the end-of-path sentinel.  The two
movement_lock.release() calls in its source (Task1.py lines 311, 315)
sit in the `command == "SSSSS"` branch, which is unreachable because
"SSSSS" already matches the stm32 prefix "SS"; the proof exhibits that
unreachability. -/
theorem command_follower_never_releases (command : String) (s : CFState) :
    (cfStep command s).effects.any isRelease = false := by
  unfold cfStep
  by_cases hA : isStm32Command command = true
  · simp [hA, isRelease]
  · by_cases hB : pyStartsWith command "SNAP" = true
    · simp [hA, hB, isRelease]
    · by_cases hC : command = "SSSSS"
      · subst hC
        have hS : isStm32Command "SSSSS" = true := by decide
        exact absurd hS hA
      · simp [hA, hB, hC, isRelease]

/-- C2 (failing-input evaluation): dequeuing the end-of-path sentinel
"SSSSS" takes the motion branch of command_follower — the mutex is
acquired and the sentinel is sent on the serial link — and no Stitch or
end-of-path handling runs, because "SSSSS" matches the stm32 prefix
"SS" (Task1.py lines 273-277) before the `elif command == "SSSSS"`
branch (line 287) is ever tested. -/
theorem cf_sentinel_sent_to_stm :
    cfStep "SSSSS"
        { failedObstacles := [], successObstacles := [],
          currentLocation := { x := 1, y := 1, d := 0 },
          failedAttempt := false, startMovement := true } =
      { effects := [CFEffect.acquireLock, CFEffect.stmSend "SSSSS"],
        state := { failedObstacles := [], successObstacles := [],
                   currentLocation := { x := 1, y := 1, d := 0 },
                   failedAttempt := false, startMovement := true },
        outcome := WorkerOutcome.ok } := by
  decide

/-- C3 (failing-input evaluation): at an end-of-path sentinel with a
nonempty failure set and failed_attempt still false, command_follower
issues no retry plan request and leaves the flag false: the retry block
of Task1.py lines 294-312 is dead code, shadowed by the "SS" motion
prefix. -/
theorem cf_sentinel_no_retry_request :
    (cfStep "SSSSS"
        { failedObstacles := [{ id := 1, x := 5, y := 11, d := 4 }],
          successObstacles := [],
          currentLocation := { x := 10, y := 10, d := 2 },
          failedAttempt := false, startMovement := true }).effects =
        [CFEffect.acquireLock, CFEffect.stmSend "SSSSS"] ∧
    (cfStep "SSSSS"
        { failedObstacles := [{ id := 1, x := 5, y := 11, d := 4 }],
          successObstacles := [],
          currentLocation := { x := 10, y := 10, d := 2 },
          failedAttempt := false, startMovement := true }).state.failedAttempt = false := by
  decide

/-- The state recv_stm reads and writes: the checkpoint queue
(path_queue) and current_location (Task1.py lines 241-246). -/
structure AckState where
  pathQueue : List Checkpoint
  currentLocation : Checkpoint
deriving DecidableEq, Repr

/-- Result of one recv_stm iteration: whether the movement lock was
released, the updated state, the messages put on android_queue, and how
the iteration ended. -/
structure AckResult where
  released : Bool
  state : AckState
  emitted : List AndroidMessage
  outcome : WorkerOutcome
deriving DecidableEq, Repr

/-- One iteration of RaspberryPi.recv_stm from Task1.py lines 226-260.
A None message raises `Exception("Invalid message")`; on the exact
message "ACK" the lock is released, then `path_queue.get_nowait()` pops
the next checkpoint (raising `queue.Empty`, uncaught, when the queue is
empty), current_location is updated from it and a location message is
queued; any other message is logged and ignored. -/
def recv_stm_step (message : Option String) (s : AckState) : AckResult :=
  match message with
  | none =>
      { released := false, state := s, emitted := [],
        outcome := WorkerOutcome.fatal "Invalid message" }
  | some m =>
      if m = "ACK" then
        match s.pathQueue with
        | [] =>
            { released := true, state := s, emitted := [],
              outcome := WorkerOutcome.fatal "queue.Empty" }
        | c :: rest =>
            { released := true,
              state := { pathQueue := rest, currentLocation := c },
              emitted := [{ cat := "location", value := AMsgValue.loc c }],
              outcome := WorkerOutcome.ok }
      else
        { released := false, state := s, emitted := [], outcome := WorkerOutcome.ok }

/-- C4 (counterexample): a message that carries the ACK tag with a
trailing distance reading, "ACK50", is not treated as an acknowledgment
by recv_stm: Task1.py line 237 tests `message == "ACK"` by string
equality, so "ACK50" falls to the discard branch — the motion mutex is
not released, the checkpoint queue and pose are unchanged even though a
checkpoint is available, and no Location message is emitted. -/
theorem recv_stm_ack_distance_discarded_cex :
    recv_stm_step (some "ACK50")
        { pathQueue := [{ x := 4, y := 1, d := 0 }],
          currentLocation := { x := 1, y := 1, d := 0 } } =
      { released := false,
        state := { pathQueue := [{ x := 4, y := 1, d := 0 }],
                   currentLocation := { x := 1, y := 1, d := 0 } },
        emitted := [], outcome := WorkerOutcome.ok } := by
  decide

/-- C4 (amended): on a serial message exactly equal to "ACK" recv_stm
releases the motion mutex, pops the next checkpoint off the checkpoint
queue and makes it the current pose, and emits a Location message to
the outbound queue; when the checkpoint queue is empty at that point
the worker fails fatally (uncaught queue.Empty) instead of keeping a
stale pose.  Only the exact string counts: an ACK-tagged message with
a trailing distance is discarded (see the counterexample above). -/
theorem recv_stm_ack_spec (s : AckState) :
    (recv_stm_step (some "ACK") s).released = true ∧
    (s.pathQueue = [] →
      (recv_stm_step (some "ACK") s).outcome = WorkerOutcome.fatal "queue.Empty") ∧
    (∀ c rest, s.pathQueue = c :: rest →
      (recv_stm_step (some "ACK") s).state.currentLocation = c ∧
      (recv_stm_step (some "ACK") s).state.pathQueue = rest ∧
      (recv_stm_step (some "ACK") s).emitted =
        [{ cat := "location", value := AMsgValue.loc c }] ∧
      (recv_stm_step (some "ACK") s).outcome = WorkerOutcome.ok) := by
  obtain ⟨pq, loc⟩ := s
  cases pq with
  | nil =>
      refine ⟨rfl, fun _ => rfl, ?_⟩
      intro c rest h
      exact absurd h (by simp)
  | cons c rest =>
      refine ⟨rfl, ?_, ?_⟩
      · intro h
        exact absurd h (by simp)
      · intro c2 r2 h
        injection h with h1 h2
        subst h1; subst h2
        exact ⟨rfl, rfl, rfl, rfl⟩

/-- C7 (counterexample): a None serial message is not discarded — it
raises `Exception("Invalid message")` (Task1.py lines 232-233) and the
recv_stm worker terminates, contradicting the claim that a None message
is logged, discarded and does not terminate the worker. -/
theorem recv_stm_none_terminates_cex :
    (recv_stm_step none
        { pathQueue := [], currentLocation := { x := 1, y := 1, d := 0 } }).outcome =
      WorkerOutcome.fatal "Invalid message" := by
  decide

/-- C7 (amended): every present (non-None) serial message other than
the acknowledgment "ACK" is logged and discarded: the motion mutex is
not released, the pose and checkpoint queue are unchanged, nothing is
emitted, and the worker continues. -/
theorem recv_stm_non_ack_discarded (m : String) (s : AckState) (h : m ≠ "ACK") :
    recv_stm_step (some m) s =
      { released := false, state := s, emitted := [], outcome := WorkerOutcome.ok } := by
  simp [recv_stm_step, h]

/-- Witness for the amended C7 at the concrete message "HELLO". -/
theorem recv_stm_non_ack_discarded_witness :
    recv_stm_step (some "HELLO")
        { pathQueue := [], currentLocation := { x := 1, y := 1, d := 0 } } =
      { released := false,
        state := { pathQueue := [], currentLocation := { x := 1, y := 1, d := 0 } },
        emitted := [], outcome := WorkerOutcome.ok } :=
  recv_stm_non_ack_discarded "HELLO" _ (by decide)

/-- A response from the image-rec (vision) API: HTTP status and the
image_id field of the JSON body (meaningful only on status 200). -/
structure VisionResponse where
  status : Nat
  imageId : String
deriving DecidableEq, Repr

/-- Result of one snap_and_rec call: whether the movement lock was
released, the messages put on android_queue, and the obstacles appended
to the failure and success sets. -/
structure SnapResult where
  released : Bool
  emitted : List AndroidMessage
  failedAdded : List Obstacle
  successAdded : List Obstacle
deriving DecidableEq, Repr

/-- RaspberryPi.snap_and_rec from Task1.py lines 329-368, after the
initial split of obstacle_id_with_signal on "_" and with image capture
and the HTTP POST as external calls.  On a non-200 status it logs and
returns — without releasing the movement lock; on 200 it releases the
lock and queues an image-rec message.  This Task1.py variant appends to
neither the failure nor the success set (the classification code exists
only in the A_5.py draft, which also returns without a release on a
non-200 status, lines 181-184 there). -/
def snap_and_rec (obstacleId : String) (resp : VisionResponse) : SnapResult :=
  if resp.status ≠ 200 then
    { released := false, emitted := [], failedAdded := [], successAdded := [] }
  else
    { released := true,
      emitted := [{ cat := "image-rec",
                    value := AMsgValue.imageRec resp.imageId obstacleId }],
      failedAdded := [], successAdded := [] }

/-- C6 (counterexample): on a failed vision call (status 500) the
motion mutex is not released, contradicting the claim that on a non-200
status the mutex is still released. -/
theorem snap_failure_keeps_lock_cex :
    (snap_and_rec "1" { status := 500, imageId := "" }).released = false := by
  decide

/-- C6 (amended): snap_and_rec releases the motion mutex exactly when
the vision call succeeds (status 200), in which case it emits an
image-rec message; it classifies the obstacle into neither the failure
nor the success set, and on a non-200 status it returns without
releasing the mutex. -/
theorem snap_and_rec_spec (oid : String) (resp : VisionResponse) :
    (snap_and_rec oid resp).failedAdded = [] ∧
    (snap_and_rec oid resp).successAdded = [] ∧
    (snap_and_rec oid resp).released = decide (resp.status = 200) ∧
    (snap_and_rec oid resp).emitted =
      (if resp.status = 200 then
        [{ cat := "image-rec", value := AMsgValue.imageRec resp.imageId oid }]
      else []) := by
  by_cases h : resp.status = 200 <;> simp [snap_and_rec, h]

/-- A response from the algo (path-planning) API: HTTP status plus the
commands and path lists of the JSON body (meaningful only on 200). -/
structure AlgoResponse where
  status : Nat
  commands : List String
  path : List Checkpoint
deriving DecidableEq, Repr

/-- The two queues request_algo refills: command_queue and path_queue. -/
structure PlanQueues where
  commandQueue : List String
  pathQueue : List Checkpoint
deriving DecidableEq, Repr

/-- The `while not q.empty(): q.get()` drain loop of clear_queues. -/
def drain {α : Type} : List α → List α
  | [] => []
  | _ :: t => drain t

/-- RaspberryPi.clear_queues from Task1.py lines 435-440: drain both
queues. -/
def clear_queues (q : PlanQueues) : PlanQueues :=
  { commandQueue := drain q.commandQueue, pathQueue := drain q.pathQueue }

/-- The `for c in commands: queue.put(c)` refill loops of request_algo. -/
def enqueueAll {α : Type} (q : List α) (xs : List α) : List α :=
  xs.foldl (fun acc x => acc ++ [x]) q

/-- The queue effects of RaspberryPi.request_algo from Task1.py
lines 370-420, given the HTTP response: on a non-200 status it logs and
returns early; on 200 it calls clear_queues and then enqueues every
command and every checkpoint of path[1:] (path[0], the robot's starting
position, is skipped). -/
def request_algo (resp : AlgoResponse) (q : PlanQueues) : PlanQueues :=
  if resp.status ≠ 200 then q
  else
    let cleared := clear_queues q
    { commandQueue := enqueueAll cleared.commandQueue resp.commands,
      pathQueue := enqueueAll cleared.pathQueue (resp.path.drop 1) }

theorem drain_eq_nil {α : Type} (l : List α) : drain l = [] := by
  induction l with
  | nil => rfl
  | cons a t ih => simpa [drain] using ih

theorem enqueueAll_eq_append {α : Type} (xs : List α) (q : List α) :
    enqueueAll q xs = q ++ xs := by
  induction xs generalizing q with
  | nil => simp [enqueueAll]
  | cons a t ih => simp [enqueueAll, List.foldl] at ih ⊢; simp [ih]

/-- C5: on a non-200 algo response the motion-command queue and the
checkpoint queue are left completely unchanged (request_algo returns
early); on a 200 response both queues are cleared and refilled so that
the command queue holds exactly the response's commands in order and
the checkpoint queue holds exactly path[1:] in order. -/
theorem request_algo_spec (resp : AlgoResponse) (q : PlanQueues) :
    request_algo resp q =
      (if resp.status = 200 then
        { commandQueue := resp.commands, pathQueue := resp.path.drop 1 }
      else q) := by
  by_cases h : resp.status = 200 <;>
    simp [request_algo, clear_queues, drain_eq_nil, enqueueAll_eq_append, h]

/-- One assignment `self.obstacles[obs["id"]] = obs` on the obstacle
registry, with Python dict semantics over an insertion-ordered
association list: an existing key keeps its position and gets the new
value, a new key is appended. -/
def dictInsert (reg : List (Int × Obstacle)) (k : Int) (v : Obstacle) :
    List (Int × Obstacle) :=
  if reg.any (fun p => decide (p.1 = k)) then
    reg.map (fun p => if p.1 = k then (k, v) else p)
  else reg ++ [(k, v)]

/-- The obstacles branch of RaspberryPi.rpi_action, Task1.py
lines 212-214: `for obs in action.value["obstacles"]:
self.obstacles[obs["id"]] = obs`. -/
def rpi_action_obstacles (reg : List (Int × Obstacle)) (obs : List Obstacle) :
    List (Int × Obstacle) :=
  obs.foldl (fun acc o => dictInsert acc o.id o) reg

/-- Number of registry entries under key k. -/
def countKey (reg : List (Int × Obstacle)) (k : Int) : Nat :=
  (reg.filter (fun p => decide (p.1 = k))).length

/-- The registry entry under key k, first match. -/
def lookupKey (reg : List (Int × Obstacle)) (k : Int) : Option Obstacle :=
  (reg.find? (fun p => decide (p.1 = k))).map Prod.snd

theorem countKey_cons (p : Int × Obstacle) (t : List (Int × Obstacle)) (k : Int) :
    countKey (p :: t) k = (if p.1 = k then 1 else 0) + countKey t k := by
  by_cases h : p.1 = k
  · simp [countKey, List.filter_cons, h, Nat.add_comm]
  · simp [countKey, List.filter_cons, h]

theorem countKey_zero_of_any_false (reg : List (Int × Obstacle)) (k : Int)
    (h : reg.any (fun p => decide (p.1 = k)) = false) : countKey reg k = 0 := by
  induction reg with
  | nil => rfl
  | cons p t ih =>
      simp only [List.any_cons, Bool.or_eq_false_iff, decide_eq_false_iff_not] at h
      rw [countKey_cons]
      simp [h.1, ih h.2]

theorem countKey_pos_of_any_true (reg : List (Int × Obstacle)) (k : Int)
    (h : reg.any (fun p => decide (p.1 = k)) = true) : 0 < countKey reg k := by
  induction reg with
  | nil => simp at h
  | cons p t ih =>
      rw [countKey_cons]
      simp only [List.any_cons, Bool.or_eq_true, decide_eq_true_eq] at h
      rcases h with h | h
      · simp [h]
      · have := ih h
        omega

theorem countKey_map_update (reg : List (Int × Obstacle)) (k : Int) (v : Obstacle) :
    countKey (reg.map (fun p => if p.1 = k then (k, v) else p)) k = countKey reg k := by
  induction reg with
  | nil => rfl
  | cons p t ih =>
      by_cases h : p.1 = k
      · simp [List.map_cons, h, countKey_cons, ih]
      · simp [List.map_cons, h, countKey_cons, ih]

theorem find?_map_update (reg : List (Int × Obstacle)) (k : Int) (v : Obstacle)
    (h : reg.any (fun p => decide (p.1 = k)) = true) :
    (reg.map (fun p => if p.1 = k then (k, v) else p)).find?
        (fun p => decide (p.1 = k)) = some (k, v) := by
  induction reg with
  | nil => simp at h
  | cons p t ih =>
      by_cases hp : p.1 = k
      · simp [List.map_cons, hp, List.find?_cons]
      · simp only [List.any_cons, Bool.or_eq_true, decide_eq_true_eq] at h
        rcases h with h | h
        · exact absurd h hp
        · simp [List.map_cons, hp, List.find?_cons, ih h]

theorem find?_append_single (reg : List (Int × Obstacle)) (k : Int) (v : Obstacle)
    (h : reg.any (fun p => decide (p.1 = k)) = false) :
    (reg ++ [(k, v)]).find? (fun p => decide (p.1 = k)) = some (k, v) := by
  induction reg with
  | nil => simp [List.find?]
  | cons p t ih =>
      simp only [List.any_cons, Bool.or_eq_false_iff, decide_eq_false_iff_not] at h
      simp [List.cons_append, List.find?_cons, h.1, ih h.2]

theorem countKey_append (l1 l2 : List (Int × Obstacle)) (k : Int) :
    countKey (l1 ++ l2) k = countKey l1 k + countKey l2 k := by
  simp [countKey, List.filter_append]

theorem dictInsert_countKey (reg : List (Int × Obstacle)) (k : Int) (v : Obstacle)
    (h : countKey reg k ≤ 1) : countKey (dictInsert reg k v) k = 1 := by
  unfold dictInsert
  cases hany : reg.any (fun p => decide (p.1 = k)) with
  | true =>
      rw [if_pos rfl, countKey_map_update]
      have := countKey_pos_of_any_true reg k hany
      omega
  | false =>
      rw [if_neg (by simp), countKey_append, countKey_zero_of_any_false reg k hany]
      simp [countKey_cons, countKey]

theorem dictInsert_lookupKey (reg : List (Int × Obstacle)) (k : Int) (v : Obstacle) :
    lookupKey (dictInsert reg k v) k = some v := by
  unfold dictInsert lookupKey
  cases hany : reg.any (fun p => decide (p.1 = k)) with
  | true => rw [if_pos rfl, find?_map_update reg k v hany]; rfl
  | false => rw [if_neg (by simp), find?_append_single reg k v hany]; rfl

/-- C9: processing SetObstacles is last-write-wins on the obstacle
registry: after two SetObstacles actions carrying the same obstacle id
(in a registry that, like a Python dict, holds at most one entry per
key), the registry maps that id to exactly one entry, and that entry is
the obstacle from the later action. -/
theorem set_obstacles_last_write_wins (reg : List (Int × Obstacle))
    (o1 o2 : Obstacle) (hid : o1.id = o2.id) (hreg : countKey reg o2.id ≤ 1) :
    countKey (rpi_action_obstacles (rpi_action_obstacles reg [o1]) [o2]) o2.id = 1 ∧
    lookupKey (rpi_action_obstacles (rpi_action_obstacles reg [o1]) [o2]) o2.id =
      some o2 := by
  have h1 : rpi_action_obstacles reg [o1] = dictInsert reg o1.id o1 := rfl
  have h2 : ∀ r, rpi_action_obstacles r [o2] = dictInsert r o2.id o2 := fun r => rfl
  rw [h2, h1, hid]
  refine ⟨?_, dictInsert_lookupKey _ _ _⟩
  exact dictInsert_countKey _ _ _ (le_of_eq (dictInsert_countKey reg o2.id o1 hreg))

/-- Witness for C9 at two concrete obstacles sharing id 1 with
different coordinates, starting from the empty registry. -/
theorem set_obstacles_last_write_wins_witness :
    countKey (rpi_action_obstacles
        (rpi_action_obstacles [] [{ id := 1, x := 5, y := 11, d := 4 }])
        [{ id := 1, x := 9, y := 2, d := 6 }]) 1 = 1 ∧
    lookupKey (rpi_action_obstacles
        (rpi_action_obstacles [] [{ id := 1, x := 5, y := 11, d := 4 }])
        [{ id := 1, x := 9, y := 2, d := 6 }]) 1 =
      some { id := 1, x := 9, y := 2, d := 6 } :=
  set_obstacles_last_write_wins [] _ _ rfl (by decide)

/-- An inbound Android JSON object of the `{cat, value}` shape. -/
structure InMsg where
  cat : String
  value : PiValue
deriving DecidableEq, Repr

/-- What one pass of the recv_android loop observed at the control
link: `android_link.recv()` raised OSError; or returned None; or
returned text that json.loads rejects; or text that parses to a bare
JSON string; or text that parses to a `{cat, value}` object.  The JSON
parse itself is the library boundary: its outcome is the event. -/
inductive AndroidRecv where
  | osError
  | noneMsg
  | badJson
  | jsonStr (s : String)
  | jsonMsg (m : InMsg)
deriving DecidableEq, Repr

/-- Result of one recv_android iteration. -/
structure RAResult where
  droppedSet : Bool
  exited : Bool
  startSet : Bool
  actionsPushed : List PiAction
  androidPushed : List AndroidMessage
deriving DecidableEq, Repr

/-- Python str.upper, as used on the control value. -/
def pyUpper (s : String) : String :=
  String.mk (s.data.map Char.toUpper)

/-- One iteration of RaspberryPi.recv_android from Task1.py
lines 167-202.  An OSError from recv() sets the android_dropped event
and the loop continues (msg_str stays None); a None message continues;
a json.loads failure hits the bare `except: return` and the worker
exits; a bare JSON string raises TypeError at `message["cat"]` (worker
exits); a `{cat, value}` object pushes a PiAction when cat is
"obstacles", and the `message == "START"` test (line 194) compares a
dict to a string, so it never fires. -/
def recv_android_step (e : AndroidRecv) : RAResult :=
  match e with
  | AndroidRecv.osError =>
      { droppedSet := true, exited := false, startSet := false,
        actionsPushed := [], androidPushed := [] }
  | AndroidRecv.noneMsg =>
      { droppedSet := false, exited := false, startSet := false,
        actionsPushed := [], androidPushed := [] }
  | AndroidRecv.badJson =>
      { droppedSet := false, exited := true, startSet := false,
        actionsPushed := [], androidPushed := [] }
  | AndroidRecv.jsonStr _ =>
      { droppedSet := false, exited := true, startSet := false,
        actionsPushed := [], androidPushed := [] }
  | AndroidRecv.jsonMsg m =>
      { droppedSet := false, exited := false, startSet := false,
        actionsPushed :=
          if m.cat = "obstacles" then [{ cat := m.cat, value := m.value }] else [],
        androidPushed := [] }

/-- C10: a control-link message whose text is not valid JSON makes the
recv_android worker return (exit) instead of being discarded, while an
OSError from the transport keeps the worker alive and is the only event
that raises the link-drop (android_dropped) signal. -/
theorem recv_android_error_paths :
    (recv_android_step AndroidRecv.badJson).exited = true ∧
    (recv_android_step AndroidRecv.badJson).droppedSet = false ∧
    (recv_android_step AndroidRecv.osError).exited = false ∧
    (recv_android_step AndroidRecv.osError).droppedSet = true ∧
    (∀ e, (recv_android_step e).droppedSet = decide (e = AndroidRecv.osError)) := by
  refine ⟨rfl, rfl, rfl, rfl, ?_⟩
  intro e
  cases e <;> rfl

/-- One iteration of RaspberryPi.recv_android from Task1_upgrade.py
lines 169-208, the draft whose control protocol carries
`{"cat":"control","value":"START"}`.  The OSError/None/parse-failure
paths are as in Task1.py; a `{cat, value}` object pushes a PiAction
when cat is "obstacles", and when cat is "control" and value.upper()
is "START" it arms movement if command_queue is nonempty (start event
set plus an info message) and otherwise queues an error message; a
non-string value under cat "control" raises TypeError at .upper()
(worker exits). -/
def recv_android_upgrade_step (e : AndroidRecv) (commandQueueEmpty : Bool) : RAResult :=
  match e with
  | AndroidRecv.osError =>
      { droppedSet := true, exited := false, startSet := false,
        actionsPushed := [], androidPushed := [] }
  | AndroidRecv.noneMsg =>
      { droppedSet := false, exited := false, startSet := false,
        actionsPushed := [], androidPushed := [] }
  | AndroidRecv.badJson =>
      { droppedSet := false, exited := true, startSet := false,
        actionsPushed := [], androidPushed := [] }
  | AndroidRecv.jsonStr _ =>
      { droppedSet := false, exited := true, startSet := false,
        actionsPushed := [], androidPushed := [] }
  | AndroidRecv.jsonMsg m =>
      let actions :=
        if m.cat = "obstacles" then [({ cat := m.cat, value := m.value } : PiAction)]
        else []
      if m.cat = "control" then
        match m.value with
        | PiValue.str v =>
            if pyUpper v = "START" then
              if commandQueueEmpty then
                { droppedSet := false, exited := false, startSet := false,
                  actionsPushed := actions,
                  androidPushed := [{ cat := "error", value := AMsgValue.text "Empty obstacles" }] }
              else
                { droppedSet := false, exited := false, startSet := true,
                  actionsPushed := actions,
                  androidPushed := [{ cat := "info", value := AMsgValue.text "Starting robot!" }] }
            else
              { droppedSet := false, exited := false, startSet := false,
                actionsPushed := actions, androidPushed := [] }
        | _ =>
            { droppedSet := false, exited := true, startSet := false,
              actionsPushed := actions, androidPushed := [] }
      else
        { droppedSet := false, exited := false, startSet := false,
          actionsPushed := actions, androidPushed := [] }

/-- C8: an inbound `{"cat":"control","value":"START"}` message arms
movement (sets the start event) and queues an info message exactly when
the motion-command queue is nonempty; with an empty queue it queues an
Error message and changes nothing else — movement is not armed, no
action is pushed, the worker neither exits nor signals a drop. -/
theorem recv_android_start_arming (empty : Bool) :
    recv_android_upgrade_step
        (AndroidRecv.jsonMsg { cat := "control", value := PiValue.str "START" }) empty =
      { droppedSet := false, exited := false, startSet := !empty,
        actionsPushed := [],
        androidPushed :=
          if empty then [{ cat := "error", value := AMsgValue.text "Empty obstacles" }]
          else [{ cat := "info", value := AMsgValue.text "Starting robot!" }] } := by
  cases empty <;> decide
